import Mathlib

/-!
Verification development for the podcast-generation backend (doskhiApi.py).

The embedding below translates the request handler `generate_podcast`, the
theme registry `THEMES`, the `/themes` endpoint and the `/test` endpoint into
Lean.  Python strings are Lean `String`s; `os.getenv` results are
`Option String`; filesystem paths are lists of path components (mirroring
`pathlib`, whose `/` operator drops empty components); the outcomes of the
two upstream network calls and of `mkdir` are supplied by an `Env` record of
`Except` values, and the handler returns the HTTP response together with a
trace of the side effects it performed (directory creation, prompt sent to
the text model, speech call, file write).
-/

/-- Model of Python `str.strip()` with no argument: removes leading and
trailing whitespace characters (ASCII whitespace subset). -/
def pyStrip (s : String) : String :=
  String.mk (((s.data.dropWhile Char.isWhitespace).reverse.dropWhile
    Char.isWhitespace).reverse)

/-- Model of Python `str.replace(" ", "_")`: the pattern is a single
character, so the call maps every space to an underscore. -/
def replaceSpaces (s : String) : String :=
  String.mk (s.data.map (fun c => if c = ' ' then '_' else c))

/-- Model of Python `a or b` on strings: the empty string is falsy, so the
expression yields `a` when `a` is non-empty and `b` otherwise. -/
def pyOrStr (a b : String) : String :=
  if a = "" then b else a

/-- Model of Python truthiness `bool(x)` for an `os.getenv` result: `None`
and the empty string are falsy, every other string is truthy. -/
def pyBool : Option String → Bool
  | none => false
  | some s => s != ""

/-- JSON-ish value for the `temperature` field of the request body: a
number or a string. -/
inductive JVal where
  | jnum : ℚ → JVal
  | jstr : String → JVal

/-- Digit run with an optional leading sign, non-empty (exponent part of a
float literal). -/
def signedDigits : List Char → Bool
  | '+' :: t => !t.isEmpty && t.all Char.isDigit
  | '-' :: t => !t.isEmpty && t.all Char.isDigit
  | t => !t.isEmpty && t.all Char.isDigit

/-- Unsigned float literal: digits, optional fraction, optional exponent. -/
def mantissaExp (l : List Char) : Bool :=
  match l.span Char.isDigit with
  | (ds, []) => !ds.isEmpty
  | (ds, '.' :: rest) =>
    (match rest.span Char.isDigit with
     | (fs, []) => !ds.isEmpty || !fs.isEmpty
     | (fs, 'e' :: t) => (!ds.isEmpty || !fs.isEmpty) && signedDigits t
     | (fs, 'E' :: t) => (!ds.isEmpty || !fs.isEmpty) && signedDigits t
     | _ => false)
  | (ds, 'e' :: t) => !ds.isEmpty && signedDigits t
  | (ds, 'E' :: t) => !ds.isEmpty && signedDigits t
  | _ => false

/-- Float literal with an optional leading sign. -/
def floatLit : List Char → Bool
  | '+' :: t => mantissaExp t
  | '-' :: t => mantissaExp t
  | t => mantissaExp t

/-- Model of Python `float(x)` as used on line 50 of the source: a number
coerces, a string coerces when (after stripping surrounding whitespace) it
is a signed decimal literal with optional fraction and exponent, and any
other string raises `ValueError` whose `str()` is
`could not convert string to float: '<s>'`.  The numeric value itself is
passed only into the upstream generation config, whose outcome the
environment supplies, so the embedding records success or the raised
message. -/
def pyFloat : JVal → Except String Unit
  | JVal.jnum _ => Except.ok ()
  | JVal.jstr s =>
    if floatLit (pyStrip s).data then Except.ok ()
    else Except.error ("could not convert string to float: '" ++ s ++ "'")

/-- Theme registry from lines 34-40 of the source, as an ordered
association list (a Python dict preserves insertion order). -/
def THEMES : List (String × String) :=
  [("CourageAndConsent",
    "Stories about empowerment, making informed choices, and understanding consent."),
   ("HealthAndHygiene",
    "Educational stories about physical health, cleanliness, and menstrual awareness."),
   ("KnowYourRights",
    "Informative stories about legal rights, gender equality, and self-advocacy."),
   ("MindMatters",
    "Narratives that focus on mental health, emotional intelligence, and resilience."),
   ("SafetyAndBoundaries",
    "Stories about personal safety, setting boundaries, and recognizing red flags.")]

/-- Dictionary lookup `THEMES[t]` as an `Option`. -/
def themesLookup (t : String) : Option String :=
  (THEMES.find? (fun p => p.1 == t)).map Prod.snd

/-- Model of Python `t in THEMES` (key membership). -/
def themesMem (t : String) : Bool :=
  (themesLookup t).isSome

/-- Model of Python `THEMES.get(t, d)`. -/
def themesGet (t d : String) : String :=
  (themesLookup t).getD d

/-- Base storage path `Path("audioFiles/topics")` from line 31, as its list
of components. -/
def BASE_AUDIO_PATH : List String :=
  ["audioFiles", "topics"]

/-- Model of the `pathlib` `/` operator: joining with an empty component
leaves the path unchanged (pathlib drops empty parts), otherwise the
component is appended. -/
def pjoin (p : List String) (s : String) : List String :=
  if s = "" then p else p ++ [s]

/-- Fallback sentence used by `THEMES.get` inside the prompt when the topic
is not a registered theme (line 69). -/
def customFallback : String :=
  "This is a custom topic. Create an informative and engaging story."

/-- Opening fragment of the prompt f-string of lines 68-69, up to and
including the interpolated topic text and the following period. -/
def promptPre (language topic custom_topic : String) : String :=
  "\n        You are a creative storyteller and animation director. Create a detailed, engaging narrative in "
    ++ language ++ " about " ++ pyOrStr topic custom_topic ++ ". "

/-- Fixed remainder of the prompt f-string (lines 69-86), after the
interpolated theme description. -/
def promptTail : String :=
  "\n\n        Imagine you're telling this story to a young audience. Use natural, conversational language. Include descriptive details, relatable situations, and a clear story arc with a beginning, middle, and end.\n\n        For each sentence or short phrase, provide a corresponding pose directive for the animated character. Use the following poses:\n        - Normal: Neutral stance, hands down.\n        - Cross: Hands closed.\n        - Greet: Single hand wave.\n        - Think: Chin touch, one eye slightly closed.\n        - Spread: Elbow-out hand opening.\n        - Point: Single hand point, palm open.\n\n        Output ONLY the narrative and pose directives in the format:\n        <sentence or short phrase>\n        [POSE: <pose_name>]\n\n        Ensure the poses naturally complement the story's emotions and actions, and that the transitions are smooth and suitable for audio synchronization.\n        "

/-- The full prompt string built on lines 68-86 from the language, the
(stripped) topic and the (stripped) custom topic. -/
def promptFor (language topic custom_topic : String) : String :=
  promptPre language topic custom_topic ++ themesGet topic customFallback ++ promptTail

/-- JSON body of a `POST /generate-podcast` request: each field is absent
or present with its value; `temperature` may be a JSON number or string. -/
structure Req where
  topic : Option String
  custom_topic : Option String
  language : Option String
  voice : Option String
  temperature : Option JVal

/-- HTTP response produced by the handler: status code plus the JSON body
fields that the handler can emit. -/
structure Resp where
  code : Nat
  status : String
  message : Option String
  script : Option String
  audio_url : Option String
deriving DecidableEq

/-- Side effects performed by one handler run: the directory passed to
`mkdir` (line 65) when reached, the prompt submitted to the text model
(lines 88-92) when reached, whether the speech-synthesis call was made
(lines 104-109), and the destination path written on synthesis success. -/
structure Trace where
  mkdirArg : Option (List String)
  promptSent : Option String
  ttsCalled : Bool
  fileWritten : Option (List String)
deriving DecidableEq

/-- Process environment of one request: whether the OpenAI client was
initialized at startup (lines 22-28), and the outcomes of the `mkdir`
call, the text-generation call and the speech-synthesis call. -/
structure Env where
  openai_client : Bool
  mkdirResult : Except String Unit
  geminiResult : Except String String
  ttsResult : Except String Unit

/-- Trace of a run that performed no filesystem operation and no upstream
call. -/
def noTrace : Trace :=
  { mkdirArg := none, promptSent := none, ttsCalled := false, fileWritten := none }

/-- Shallow embedding of the `generate_podcast` handler (lines 42-121 of
the source), line by line: field extraction with defaults and stripping
(46-50, where the `float` coercion of `temperature` can raise), the
empty-topic rejection (53-54), storage-path resolution (57-62), directory
creation (65), prompt construction and the text-model call (68-94),
filename derivation (97-98), the guarded speech-synthesis attempt with its
swallowed failure (101-112), the success response (114-118) and the
top-level catch-all (120-121). -/
def generate_podcast (env : Env) (data : Req) : Resp × Trace :=
  let topic := pyStrip (data.topic.getD (""))
  let custom_topic := pyStrip (data.custom_topic.getD (""))
  let language := data.language.getD ("Hindi")
  match pyFloat (data.temperature.getD (JVal.jnum (7/10))) with
  | Except.error m =>
    ({ code := 500, status := "error", message := some m,
       script := none, audio_url := none }, noTrace)
  | Except.ok _ =>
    if topic = "" ∧ custom_topic = "" then
      ({ code := 400, status := "error",
         message := some ("Please provide a topic or custom topic"),
         script := none, audio_url := none }, noTrace)
    else
      let audio_folder :=
        if themesMem topic then pjoin BASE_AUDIO_PATH topic
        else pjoin (pjoin BASE_AUDIO_PATH ("CustomTopics")) (replaceSpaces custom_topic)
      match env.mkdirResult with
      | Except.error m =>
        ({ code := 500, status := "error", message := some m,
           script := none, audio_url := none },
         { mkdirArg := some audio_folder, promptSent := none,
           ttsCalled := false, fileWritten := none })
      | Except.ok _ =>
        let prompt := promptFor language topic custom_topic
        match env.geminiResult with
        | Except.error m =>
          ({ code := 500, status := "error", message := some m,
             script := none, audio_url := none },
           { mkdirArg := some audio_folder, promptSent := some prompt,
             ttsCalled := false, fileWritten := none })
        | Except.ok podcast_script =>
          let filename := replaceSpaces (pyOrStr topic custom_topic) ++ ".mp3"
          let speech_file_path := pjoin audio_folder filename
          if env.openai_client then
            match env.ttsResult with
            | Except.ok _ =>
              let audio_url :=
                if topic ≠ "" then
                  "/stream-audio/" ++ topic ++ "/" ++ filename
                else
                  "/stream-audio/CustomTopics/" ++ custom_topic ++ "/" ++ filename
              ({ code := 200, status := "success", message := none,
                 script := some podcast_script, audio_url := some audio_url },
               { mkdirArg := some audio_folder, promptSent := some prompt,
                 ttsCalled := true, fileWritten := some speech_file_path })
            | Except.error _ =>
              ({ code := 200, status := "success", message := none,
                 script := some podcast_script, audio_url := none },
               { mkdirArg := some audio_folder, promptSent := some prompt,
                 ttsCalled := true, fileWritten := none })
          else
            ({ code := 200, status := "success", message := none,
               script := some podcast_script, audio_url := none },
             { mkdirArg := some audio_folder, promptSent := some prompt,
               ttsCalled := false, fileWritten := none })

/-- Response of `GET /themes`. -/
structure ThemesResp where
  themes : List String
deriving DecidableEq

/-- Shallow embedding of the `/themes` endpoint (lines 130-132):
`list(THEMES.keys())`.  The handler reads no mutable state, which the
ignored argument (an arbitrary history of prior requests) makes explicit. -/
def get_themes (_prior : List Req) : ThemesResp :=
  { themes := THEMES.map Prod.fst }

/-- Response of `GET /test`. -/
structure TestResp where
  status : String
  message : String
  gemini_key_set : Bool
  openai_key_set : Bool
deriving DecidableEq

/-- Shallow embedding of the `/test` endpoint (lines 134-141), applied to
the two credential environment variables. -/
def test_endpoint (gemini_key openai_key : Option String) : TestResp :=
  { status := "success", message := "API is working",
    gemini_key_set := pyBool gemini_key, openai_key_set := pyBool openai_key }

/-- Environment in which every external interaction succeeds. -/
def envAllOk : Env :=
  { openai_client := true, mkdirResult := Except.ok (),
    geminiResult := Except.ok ("SCRIPT"), ttsResult := Except.ok () }

/-- Environment whose speech-synthesis client was never initialized. -/
def envNoOpenai : Env :=
  { openai_client := false, mkdirResult := Except.ok (),
    geminiResult := Except.ok ("SCRIPT"), ttsResult := Except.ok () }

/-- Environment whose speech-synthesis call raises. -/
def envTtsFail : Env :=
  { openai_client := true, mkdirResult := Except.ok (),
    geminiResult := Except.ok ("SCRIPT"), ttsResult := Except.error ("tts down") }

/-- Environment whose directory creation raises. -/
def envMkdirFail : Env :=
  { openai_client := true, mkdirResult := Except.error ("disk full"),
    geminiResult := Except.ok ("SCRIPT"), ttsResult := Except.ok () }

/-- Environment whose text-generation call raises. -/
def envGemFail : Env :=
  { openai_client := true, mkdirResult := Except.ok (),
    geminiResult := Except.error ("quota exceeded"), ttsResult := Except.ok () }

/-- Request with both topic fields empty and a non-numeric temperature. -/
def reqEmptyBadTemp : Req :=
  { topic := some (""), custom_topic := some (""), language := none,
    voice := none, temperature := some (JVal.jstr ("abc")) }

/-- Request with every field absent. -/
def reqAllAbsent : Req :=
  { topic := none, custom_topic := none, language := none,
    voice := none, temperature := none }

/-- Request with a valid topic but a non-numeric temperature. -/
def reqTopicBadTemp : Req :=
  { topic := some ("T"), custom_topic := none, language := none,
    voice := none, temperature := some (JVal.jstr ("abc")) }

/-- Request with a plain known-theme topic. -/
def reqTopicOnly : Req :=
  { topic := some ("MindMatters"), custom_topic := none, language := none,
    voice := none, temperature := none }

/-- The worked example of the spec: topic MindMatters, language English. -/
def reqMindMatters : Req :=
  { topic := some ("MindMatters"), custom_topic := none,
    language := some ("English"), voice := none, temperature := none }

/-- Request with an empty topic and the custom topic `Saving Water`. -/
def reqSavingWater : Req :=
  { topic := some (""), custom_topic := some ("Saving Water"),
    language := none, voice := none, temperature := none }

/-- Request whose unrecognized topic is the literal string `CustomTopics`
and whose custom topic is empty. -/
def reqCustomTopicsLiteral : Req :=
  { topic := some ("CustomTopics"), custom_topic := some (""),
    language := none, voice := none, temperature := none }

/-- Request with the unrecognized topic `My Topic` and no custom topic. -/
def reqMyTopic : Req :=
  { topic := some ("My Topic"), custom_topic := none,
    language := none, voice := none, temperature := none }

theorem themesLookup_empty : themesLookup ("") = none := by decide

theorem replaceSpaces_empty_iff (s : String) : replaceSpaces s = "" ↔ s = "" := by
  cases s with
  | mk l =>
    cases l with
    | nil => simp [replaceSpaces]
    | cons c t =>
      constructor
      · intro h
        have hd := congrArg String.data h
        simp [replaceSpaces] at hd
      · intro h
        have hd := congrArg String.data h
        simp at hd

/-- C6: for the request with topic MindMatters and language English, the
resolved directory is audioFiles/topics/MindMatters, the destination
filename is MindMatters.mp3, and on synthesis success the response's
audio_url is /stream-audio/MindMatters/MindMatters.mp3; this holds for
every script the text model returns. -/
theorem C6_mindmatters_example (s : String) :
    (generate_podcast { envAllOk with geminiResult := Except.ok s }
        reqMindMatters).2.mkdirArg = some (["audioFiles", "topics", "MindMatters"]) ∧
    String.intercalate ("/") (["audioFiles", "topics", "MindMatters"]) =
      "audioFiles/topics/MindMatters" ∧
    (generate_podcast { envAllOk with geminiResult := Except.ok s }
        reqMindMatters).2.fileWritten =
      some (["audioFiles", "topics", "MindMatters", "MindMatters.mp3"]) ∧
    (generate_podcast { envAllOk with geminiResult := Except.ok s }
        reqMindMatters).1.audio_url =
      some ("/stream-audio/MindMatters/MindMatters.mp3") := by
  refine ⟨rfl, rfl, rfl, rfl⟩

/-- C8: `GET /themes` returns exactly the registry's five identifiers, in
the registry's insertion order, independently of any prior requests. -/
theorem C8_themes_stable (p q : List Req) :
    get_themes p = get_themes q ∧
    (get_themes p).themes =
      ["CourageAndConsent", "HealthAndHygiene", "KnowYourRights",
       "MindMatters", "SafetyAndBoundaries"] :=
  ⟨rfl, rfl⟩

/-- C9: the `/test` response depends on the two credential strings only
through their truthiness: any two credential environments whose strings
have pairwise equal truthiness produce identical responses, and the
response carries only fixed text plus the two booleans. -/
theorem C9_test_noninterference (g1 o1 g2 o2 : Option String)
    (hg : pyBool g1 = pyBool g2) (ho : pyBool o1 = pyBool o2) :
    test_endpoint g1 o1 = test_endpoint g2 o2 := by
  simp [test_endpoint, hg, ho]

/-- C9 witness: two environments with different credential values of equal
truthiness (concrete secrets present in one, different secrets or absence
in the other) get identical `/test` responses. -/
theorem C9_test_noninterference_witness :
    pyBool (some ("gemini-secret-A")) = pyBool (some ("gemini-secret-B")) ∧
    pyBool (none : Option String) = pyBool (some ("")) ∧
    test_endpoint (some ("gemini-secret-A")) (none) =
      test_endpoint (some ("gemini-secret-B")) (some ("")) :=
  ⟨by decide, by decide,
   C9_test_noninterference (some ("gemini-secret-A")) (none)
     (some ("gemini-secret-B")) (some ("")) (by decide) (by decide)⟩

/-- C2 evaluation at the failing input: for the request with empty topic
and custom topic `Saving Water`, with synthesis succeeding, the code
returns an audio_url whose custom-topic segment is the raw custom topic
(space kept), while the file is written under the sanitized
(space-to-underscore) directory; the claim says the URL segment is the
sanitized form matching that directory. -/
theorem C2_url_dir_mismatch :
    (generate_podcast envAllOk reqSavingWater).1.audio_url =
      some ("/stream-audio/CustomTopics/Saving Water/Saving_Water.mp3") ∧
    (generate_podcast envAllOk reqSavingWater).2.fileWritten =
      some (["audioFiles", "topics", "CustomTopics", "Saving_Water", "Saving_Water.mp3"]) ∧
    ("Saving Water" : String) ≠ "Saving_Water" := by
  refine ⟨rfl, rfl, by decide⟩

/-- C1 counterexample: a request with both topic fields empty but a
non-numeric temperature string is answered with HTTP 500 (the `float`
coercion on line 50 raises before the empty-topic check on line 53), not
with the HTTP 400 the claim asserts; no filesystem or upstream operation
is performed. -/
theorem C1_counterexample :
    (generate_podcast envAllOk reqEmptyBadTemp).1.code ≠ 400 ∧
    (generate_podcast envAllOk reqEmptyBadTemp).1.code = 500 ∧
    (generate_podcast envAllOk reqEmptyBadTemp).2 = noTrace := by
  refine ⟨by decide, rfl, rfl⟩

/-- C10 counterexample: for the unrecognized non-empty topic that is the
literal string `CustomTopics` (with empty custom topic), the file is
written into exactly the category directory that the returned audio_url
names (base/CustomTopics), so the claim's clause that the URL names a
directory into which no file was written is false at this input. -/
theorem C10_counterexample :
    (generate_podcast envAllOk reqCustomTopicsLiteral).1.audio_url =
      some ("/stream-audio/CustomTopics/CustomTopics.mp3") ∧
    (generate_podcast envAllOk reqCustomTopicsLiteral).2.fileWritten =
      some (["audioFiles", "topics", "CustomTopics", "CustomTopics.mp3"]) ∧
    BASE_AUDIO_PATH ++ ["CustomTopics"] = ["audioFiles", "topics", "CustomTopics"] := by
  refine ⟨rfl, rfl, rfl⟩

theorem replaceSpaces_empty : replaceSpaces ("") = "" := rfl

theorem append_mp3_ne_empty (s : String) : ¬ (s ++ ".mp3" = "") := by
  intro h
  have h2 := congrArg String.length h
  rw [String.length_append] at h2
  have h3 : (".mp3" : String).length = 4 := rfl
  have h4 : ("" : String).length = 0 := rfl
  rw [h3, h4] at h2
  omega

theorem mkdirArg_eq (env : Env) (data : Req)
    (hT : pyFloat (data.temperature.getD (JVal.jnum (7/10))) = Except.ok ())
    (hV : ¬ (pyStrip (data.topic.getD ("")) = "" ∧ pyStrip (data.custom_topic.getD ("")) = "")) :
    (generate_podcast env data).2.mkdirArg =
      some (if themesMem (pyStrip (data.topic.getD (""))) then
              pjoin BASE_AUDIO_PATH (pyStrip (data.topic.getD ("")))
            else
              pjoin (pjoin BASE_AUDIO_PATH ("CustomTopics"))
                (replaceSpaces (pyStrip (data.custom_topic.getD (""))))) := by
  cases hm : env.mkdirResult with
  | error m => simp [generate_podcast, hT, hV, hm]
  | ok u =>
    cases hg : env.geminiResult with
    | error m => simp [generate_podcast, hT, hV, hm, hg]
    | ok s =>
      cases ho : env.openai_client
      · simp [generate_podcast, hT, hV, hm, hg, ho]
      · cases ht : env.ttsResult <;> simp [generate_podcast, hT, hV, hm, hg, ho, ht]

theorem promptSent_eq (env : Env) (data : Req)
    (hT : pyFloat (data.temperature.getD (JVal.jnum (7/10))) = Except.ok ())
    (hV : ¬ (pyStrip (data.topic.getD ("")) = "" ∧ pyStrip (data.custom_topic.getD ("")) = ""))
    (hM : env.mkdirResult = Except.ok ()) :
    (generate_podcast env data).2.promptSent =
      some (promptFor (data.language.getD ("Hindi")) (pyStrip (data.topic.getD ("")))
        (pyStrip (data.custom_topic.getD ("")))) := by
  cases hg : env.geminiResult with
  | error m => simp [generate_podcast, hT, hV, hM, hg]
  | ok s =>
    cases ho : env.openai_client
    · simp [generate_podcast, hT, hV, hM, hg, ho]
    · cases ht : env.ttsResult <;> simp [generate_podcast, hT, hV, hM, hg, ho, ht]

/-- C1 amended: for every request in which both topic and custom_topic are
empty after stripping, provided the temperature field coerces to a float
(it is absent or numeric or a numeric string), the handler returns HTTP
400 with status error and a message, and performs no filesystem operation
and no upstream model or speech call.  (Unamended, the claim fails: the
float coercion on line 50 runs first, so a non-numeric temperature turns
the same request into an HTTP 500.) -/
theorem C1_amended (env : Env) (data : Req)
    (hT : pyFloat (data.temperature.getD (JVal.jnum (7/10))) = Except.ok ())
    (h1 : pyStrip (data.topic.getD ("")) = "")
    (h2 : pyStrip (data.custom_topic.getD ("")) = "") :
    (generate_podcast env data).1.code = 400 ∧
    (generate_podcast env data).1.status = "error" ∧
    (generate_podcast env data).1.message = some ("Please provide a topic or custom topic") ∧
    (generate_podcast env data).2 = noTrace := by
  simp [generate_podcast, hT, h1, h2]

/-- C1 amended, witness: the request with every field absent is rejected
with HTTP 400 and no side effect. -/
theorem C1_amended_witness :
    (generate_podcast envAllOk reqAllAbsent).1.code = 400 ∧
    (generate_podcast envAllOk reqAllAbsent).1.status = "error" ∧
    (generate_podcast envAllOk reqAllAbsent).1.message = some ("Please provide a topic or custom topic") ∧
    (generate_podcast envAllOk reqAllAbsent).2 = noTrace :=
  C1_amended envAllOk reqAllAbsent rfl rfl rfl

/-- C3: for every valid request whose script generation succeeds, if the
speech client was never initialized or the synthesis call raises, the
handler still returns HTTP 200 with status success, the generated script,
and a null audio_url. -/
theorem C3_synthesis_never_fails_request (env : Env) (data : Req) (s : String)
    (hT : pyFloat (data.temperature.getD (JVal.jnum (7/10))) = Except.ok ())
    (hV : ¬ (pyStrip (data.topic.getD ("")) = "" ∧ pyStrip (data.custom_topic.getD ("")) = ""))
    (hM : env.mkdirResult = Except.ok ())
    (hG : env.geminiResult = Except.ok s)
    (hS : env.openai_client = false ∨ ∃ e, env.ttsResult = Except.error e) :
    (generate_podcast env data).1.code = 200 ∧
    (generate_podcast env data).1.status = "success" ∧
    (generate_podcast env data).1.script = some s ∧
    (generate_podcast env data).1.audio_url = none := by
  rcases hS with hS | ⟨e, hS⟩
  · simp [generate_podcast, hT, hV, hM, hG, hS]
  · cases ho : env.openai_client
    · simp [generate_podcast, hT, hV, hM, hG, ho]
    · simp [generate_podcast, hT, hV, hM, hG, ho, hS]

/-- C3 witness: with the speech client uninitialized, and separately with
the synthesis call raising, the MindMatters request still succeeds with a
script and a null audio_url. -/
theorem C3_witness :
    ((generate_podcast envNoOpenai reqTopicOnly).1.code = 200 ∧
     (generate_podcast envNoOpenai reqTopicOnly).1.status = "success" ∧
     (generate_podcast envNoOpenai reqTopicOnly).1.script = some ("SCRIPT") ∧
     (generate_podcast envNoOpenai reqTopicOnly).1.audio_url = none) ∧
    ((generate_podcast envTtsFail reqTopicOnly).1.code = 200 ∧
     (generate_podcast envTtsFail reqTopicOnly).1.status = "success" ∧
     (generate_podcast envTtsFail reqTopicOnly).1.script = some ("SCRIPT") ∧
     (generate_podcast envTtsFail reqTopicOnly).1.audio_url = none) :=
  ⟨C3_synthesis_never_fails_request envNoOpenai reqTopicOnly ("SCRIPT")
     rfl (by decide) rfl rfl (Or.inl rfl),
   C3_synthesis_never_fails_request envTtsFail reqTopicOnly ("SCRIPT")
     rfl (by decide) rfl rfl (Or.inr ⟨"tts down", rfl⟩)⟩

/-- C4: for every request whose stripped topic is a registered theme (with
the temperature coercion and the directory creation succeeding), the
resolved storage directory is the base path joined with the topic, and the
theme description embedded in the prompt sent to the model is exactly the
registry's description for that topic. -/
theorem C4_theme_dir_prompt (env : Env) (data : Req) (d : String)
    (hT : pyFloat (data.temperature.getD (JVal.jnum (7/10))) = Except.ok ())
    (hTheme : themesLookup (pyStrip (data.topic.getD (""))) = some d)
    (hM : env.mkdirResult = Except.ok ()) :
    (generate_podcast env data).2.mkdirArg =
      some (BASE_AUDIO_PATH ++ [pyStrip (data.topic.getD (""))]) ∧
    (generate_podcast env data).2.promptSent =
      some (promptFor (data.language.getD ("Hindi")) (pyStrip (data.topic.getD ("")))
        (pyStrip (data.custom_topic.getD ("")))) ∧
    themesGet (pyStrip (data.topic.getD (""))) customFallback = d ∧
    ∃ pre suf,
      promptFor (data.language.getD ("Hindi")) (pyStrip (data.topic.getD ("")))
        (pyStrip (data.custom_topic.getD (""))) = pre ++ d ++ suf := by
  have hne : pyStrip (data.topic.getD ("")) ≠ "" := by
    intro h
    rw [h, themesLookup_empty] at hTheme
    exact Option.noConfusion hTheme
  have hmem : themesMem (pyStrip (data.topic.getD (""))) = true := by
    simp [themesMem, hTheme]
  have hget : themesGet (pyStrip (data.topic.getD (""))) customFallback = d := by
    simp [themesGet, hTheme]
  have hV : ¬ (pyStrip (data.topic.getD ("")) = "" ∧ pyStrip (data.custom_topic.getD ("")) = "") :=
    fun h => hne h.1
  refine ⟨?_, promptSent_eq env data hT hV hM, hget, ?_⟩
  · rw [mkdirArg_eq env data hT hV, if_pos hmem, pjoin, if_neg hne]
  · exact ⟨promptPre (data.language.getD ("Hindi")) (pyStrip (data.topic.getD ("")))
      (pyStrip (data.custom_topic.getD (""))), promptTail, by rw [promptFor, hget]⟩

/-- C4 witness: the MindMatters request resolves to
audioFiles/topics/MindMatters and its prompt embeds the MindMatters
registry description. -/
theorem C4_witness :
    (generate_podcast envAllOk reqMindMatters).2.mkdirArg =
      some (BASE_AUDIO_PATH ++ ["MindMatters"]) ∧
    (generate_podcast envAllOk reqMindMatters).2.promptSent =
      some (promptFor ("English") ("MindMatters") ("")) ∧
    themesGet ("MindMatters") customFallback =
      "Narratives that focus on mental health, emotional intelligence, and resilience." ∧
    ∃ pre suf, promptFor ("English") ("MindMatters") ("") =
      pre ++ "Narratives that focus on mental health, emotional intelligence, and resilience." ++ suf :=
  C4_theme_dir_prompt envAllOk reqMindMatters
    ("Narratives that focus on mental health, emotional intelligence, and resilience.")
    rfl (by decide) rfl

/-- C5: for every request whose stripped topic is not a registered theme
and whose stripped custom_topic is non-empty (with the temperature
coercion succeeding), the resolved destination directory is
base/CustomTopics/<custom_topic with every space replaced by an
underscore>. -/
theorem C5_custom_dir (env : Env) (data : Req)
    (hT : pyFloat (data.temperature.getD (JVal.jnum (7/10))) = Except.ok ())
    (hNot : themesMem (pyStrip (data.topic.getD (""))) = false)
    (hC : pyStrip (data.custom_topic.getD ("")) ≠ "") :
    (generate_podcast env data).2.mkdirArg =
      some (BASE_AUDIO_PATH ++
        ["CustomTopics", replaceSpaces (pyStrip (data.custom_topic.getD ("")))]) := by
  have hV : ¬ (pyStrip (data.topic.getD ("")) = "" ∧ pyStrip (data.custom_topic.getD ("")) = "") :=
    fun h => hC h.2
  have hrs : replaceSpaces (pyStrip (data.custom_topic.getD (""))) ≠ "" := by
    intro h
    exact hC ((replaceSpaces_empty_iff _).mp h)
  rw [mkdirArg_eq env data hT hV, hNot]
  simp [pjoin, hrs]

/-- C5 witness: empty topic with custom topic `Saving Water` resolves to
audioFiles/topics/CustomTopics/Saving_Water. -/
theorem C5_custom_dir_witness :
    (generate_podcast envAllOk reqSavingWater).2.mkdirArg =
      some (BASE_AUDIO_PATH ++ ["CustomTopics", replaceSpaces ("Saving Water")]) :=
  C5_custom_dir envAllOk reqSavingWater rfl (by decide) (by decide)

/-- C7: every exception raised during processing other than the explicit
empty-topic rejection is caught by the top-level handler and surfaces as
HTTP 500 with status error and the exception's textual message: this holds
for a failing temperature coercion, a failing directory creation, and a
failing text-generation call. -/
theorem C7_catch_all_message (env : Env) (data : Req) (m : String) :
    (pyFloat (data.temperature.getD (JVal.jnum (7/10))) = Except.error m →
      (generate_podcast env data).1 =
        { code := 500, status := "error", message := some m,
          script := none, audio_url := none }) ∧
    (pyFloat (data.temperature.getD (JVal.jnum (7/10))) = Except.ok () →
      ¬ (pyStrip (data.topic.getD ("")) = "" ∧ pyStrip (data.custom_topic.getD ("")) = "") →
      env.mkdirResult = Except.error m →
      (generate_podcast env data).1 =
        { code := 500, status := "error", message := some m,
          script := none, audio_url := none }) ∧
    (pyFloat (data.temperature.getD (JVal.jnum (7/10))) = Except.ok () →
      ¬ (pyStrip (data.topic.getD ("")) = "" ∧ pyStrip (data.custom_topic.getD ("")) = "") →
      env.mkdirResult = Except.ok () →
      env.geminiResult = Except.error m →
      (generate_podcast env data).1 =
        { code := 500, status := "error", message := some m,
          script := none, audio_url := none }) := by
  refine ⟨fun h1 => ?_, fun h1 h2 h3 => ?_, fun h1 h2 h3 h4 => ?_⟩
  · simp [generate_podcast, h1]
  · simp [generate_podcast, h1, h2, h3]
  · simp [generate_podcast, h1, h2, h3, h4]

/-- C7 witness: a non-numeric temperature, a failing directory creation
and a failing generation call each yield HTTP 500 with the exception's
message. -/
theorem C7_catch_all_message_witness :
    (generate_podcast envAllOk reqTopicBadTemp).1 =
      { code := 500, status := "error",
        message := some ("could not convert string to float: 'abc'"),
        script := none, audio_url := none } ∧
    (generate_podcast envMkdirFail reqTopicOnly).1 =
      { code := 500, status := "error", message := some ("disk full"),
        script := none, audio_url := none } ∧
    (generate_podcast envGemFail reqTopicOnly).1 =
      { code := 500, status := "error", message := some ("quota exceeded"),
        script := none, audio_url := none } :=
  ⟨(C7_catch_all_message envAllOk reqTopicBadTemp ("could not convert string to float: 'abc'")).1
     rfl,
   (C7_catch_all_message envMkdirFail reqTopicOnly ("disk full")).2.1 rfl (by decide) rfl,
   (C7_catch_all_message envGemFail reqTopicOnly ("quota exceeded")).2.2 rfl (by decide) rfl rfl⟩

/-- C10 amended: for every request whose stripped topic is non-empty but
not a registered theme and whose stripped custom_topic is empty, the
request passes validation, the destination directory is exactly
base/CustomTopics (the empty custom topic contributes no subdirectory),
the audio file is written there as <topic with spaces replaced by
underscores>.mp3, and on synthesis success the returned audio_url is
/stream-audio/<topic>/<filename>; unless the topic is the literal string
CustomTopics, that URL names a category directory different from the one
the file was written into. -/
theorem C10_amended (env : Env) (data : Req) (s : String)
    (hT : pyFloat (data.temperature.getD (JVal.jnum (7/10))) = Except.ok ())
    (hTop : pyStrip (data.topic.getD ("")) ≠ "")
    (hNot : themesMem (pyStrip (data.topic.getD (""))) = false)
    (hC : pyStrip (data.custom_topic.getD ("")) = "")
    (hM : env.mkdirResult = Except.ok ())
    (hG : env.geminiResult = Except.ok s)
    (hO : env.openai_client = true)
    (hTts : env.ttsResult = Except.ok ()) :
    (generate_podcast env data).1.code = 200 ∧
    (generate_podcast env data).2.mkdirArg = some (BASE_AUDIO_PATH ++ ["CustomTopics"]) ∧
    (generate_podcast env data).2.fileWritten =
      some (BASE_AUDIO_PATH ++ ["CustomTopics",
        replaceSpaces (pyStrip (data.topic.getD (""))) ++ ".mp3"]) ∧
    (generate_podcast env data).1.audio_url =
      some ("/stream-audio/" ++ pyStrip (data.topic.getD ("")) ++ "/" ++
        (replaceSpaces (pyStrip (data.topic.getD (""))) ++ ".mp3")) ∧
    (pyStrip (data.topic.getD ("")) ≠ "CustomTopics" →
      BASE_AUDIO_PATH ++ [pyStrip (data.topic.getD (""))] ≠
        BASE_AUDIO_PATH ++ ["CustomTopics"]) := by
  have hV : ¬ (pyStrip (data.topic.getD ("")) = "" ∧ pyStrip (data.custom_topic.getD ("")) = "") :=
    fun h => hTop h.1
  have hfn : ¬ (replaceSpaces (pyStrip (data.topic.getD (""))) ++ ".mp3" = "") :=
    append_mp3_ne_empty _
  refine ⟨?_, ?_, ?_, ?_, ?_⟩
  · simp [generate_podcast, hT, hV, hNot, hM, hG, hO, hTts]
  · rw [mkdirArg_eq env data hT hV, hNot]
    simp [replaceSpaces, hC, pjoin]
  · simp [generate_podcast, hT, hV, hNot, hM, hG, hO, hTts, pyOrStr, hC, hTop, pjoin, hfn,
      replaceSpaces_empty]
  · simp [generate_podcast, hT, hV, hNot, hM, hG, hO, hTts, pyOrStr, hC, hTop]
  · intro hne h
    exact hne (List.append_cancel_left h |> fun h2 => (List.cons_eq_cons.mp h2).1)

/-- C10 amended, witness: the request with topic `My Topic` and no custom
topic writes audioFiles/topics/CustomTopics/My_Topic.mp3 but returns
audio_url /stream-audio/My Topic/My_Topic.mp3, whose category directory
received no file. -/
theorem C10_amended_witness :
    (generate_podcast envAllOk reqMyTopic).1.code = 200 ∧
    (generate_podcast envAllOk reqMyTopic).2.mkdirArg =
      some (BASE_AUDIO_PATH ++ ["CustomTopics"]) ∧
    (generate_podcast envAllOk reqMyTopic).2.fileWritten =
      some (BASE_AUDIO_PATH ++ ["CustomTopics", replaceSpaces ("My Topic") ++ ".mp3"]) ∧
    (generate_podcast envAllOk reqMyTopic).1.audio_url =
      some ("/stream-audio/" ++ "My Topic" ++ "/" ++ (replaceSpaces ("My Topic") ++ ".mp3")) ∧
    (("My Topic" : String) ≠ "CustomTopics" →
      BASE_AUDIO_PATH ++ ["My Topic"] ≠ BASE_AUDIO_PATH ++ ["CustomTopics"]) :=
  C10_amended envAllOk reqMyTopic ("SCRIPT") rfl (by decide) (by decide) rfl rfl rfl rfl rfl
